import Mathlib

/-!
Shallow embedding of the `mmmm` mass-messaging broadcast pipeline
(`lib/mmmm/basic.py`, `lib/mmmm/templated.py`, `lib/mmmm/contact_db.py`,
`lib/mmmm/platforms/email.py`).

Modelling conventions:
* Python exceptions become `Except String`; an exception value is the message
  text of the `raise` in the source.
* The transport (`ClientUser.send_message`, external network I/O) is an
  explicit function parameter `transport : S → R → C → Except String Unit`;
  `.error` models the send raising.
* `logging` calls that the spec makes observable are modelled as returned
  lists: the dispatch loop returns one `LogEntry` per attempted send, and the
  templated message builder additionally returns the list of recipient ids
  whose skip was logged (`ContactNotFound` skips).
* The contact database's external MySQL store is modelled as its table
  contents: `rows platform` is the list of `(c_id, username)` rows of the
  per-platform username table.  `get_usernames` models
  `select username from platform-table`; `get_contact` models
  `select c_id ... where username = u`, returning `none` where the Python
  lookup raises `KeyError`.
* Python's dynamic typing of the template input builder result is modelled by
  `TemplateInput`: `seq` is a tuple/list of substitution values, `scalar` is
  any non-iterable value, for which `format(*x)` raises `TypeError`.
* `str.format` itself (external, Python stdlib) is an abstract parameter
  `fmt : String → List String → String`.
-/

/-- Model of `basic.Message`: an immutable (sender, recipient, content)
triple. -/
structure Message (S R C : Type) where
  sender : S
  recipient : R
  content : C
deriving DecidableEq

/-- Model of one `ClientUser.send_message` transport: external I/O that can
raise. -/
def Message.send {S R C : Type} (transport : S → R → C → Except String Unit)
    (m : Message S R C) : Except String Unit :=
  transport m.sender m.recipient m.content

/-- One log line emitted by `basic.send_message`: success logs the recipient
id and the content, failure logs the recipient id. -/
inductive LogEntry (C : Type) where
  | success (recipientId : String) (content : C)
  | failure (recipientId : String)
deriving DecidableEq

/-- The recipient identifier a log entry mentions. -/
def LogEntry.rid {C : Type} : LogEntry C → String
  | .success i _ => i
  | .failure i => i

/-- Model of a `mmmm.platform.Platform` adapter: `build_sender` may raise
(`SenderConstructionError`), `build_recipient` is total, and `get_id` models
the platform's `User.get_id`. -/
structure PlatformM (S R D DR : Type) where
  build_sender : D → Except String S
  build_recipient : DR → R
  get_id : R → String

namespace basic

/-- Model of `basic.build_messages`: one message per recipient, all with the
same sender and content. -/
def build_messages {S R C : Type} (sender : S) (recipients : List R)
    (content : C) : List (Message S R C) :=
  recipients.map fun recipient => ⟨sender, recipient, content⟩

/-- Model of `basic.send_message`: attempts the send and logs the outcome;
the `try`/`except Exception` catches every transport failure, so the result
is a total `LogEntry`, never an exception. -/
def send_message {S R C : Type} (get_id : R → String)
    (transport : S → R → C → Except String Unit) (m : Message S R C) :
    LogEntry C :=
  match m.send transport with
  | .ok _ => .success (get_id m.recipient) m.content
  | .error _ => .failure (get_id m.recipient)

/-- The `for message in messages: send_message(message)` loop shared by
`basic._send_to_all` and `templated._send_to_all`. -/
def dispatchLoop {S R C : Type} (get_id : R → String)
    (transport : S → R → C → Except String Unit) :
    List (Message S R C) → List (LogEntry C)
  | [] => []
  | m :: rest => send_message get_id transport m :: dispatchLoop get_id transport rest

/-- Model of `basic._send_to_all`: build all messages, then dispatch them. -/
def send_to_all_built {S R C : Type} (get_id : R → String)
    (transport : S → R → C → Except String Unit) (sender : S)
    (recipients : List R) (content : C) : List (LogEntry C) :=
  dispatchLoop get_id transport (build_messages sender recipients content)

/-- The resource dictionary returned by `basic.build_resources`. -/
structure Resources (S R D DR C : Type) where
  platform : PlatformM S R D DR
  sender : S
  recipients : List R
  content : C

/-- Model of `basic.build_resources`: resolve the platform name in the
registry (`KeyError` when absent), build the sender (may raise), build every
recipient. -/
def build_resources {S R D DR C : Type}
    (registry : String → Option (PlatformM S R D DR)) (platform_name : String)
    (sender_data : D) (recipients_data : List DR) (content : C) :
    Except String (Resources S R D DR C) :=
  match registry platform_name with
  | none => .error ("KeyError: " ++ platform_name)
  | some platform =>
    match platform.build_sender sender_data with
    | .error e => .error e
    | .ok sender =>
      .ok ⟨platform, sender, recipients_data.map platform.build_recipient, content⟩

/-- Model of `basic.send_to_all`: build resources, then dispatch.  The first
component is the call outcome (an uncaught exception propagates as `.error`);
the second is the send log, one entry per attempted send. -/
def send_to_all {S R D DR C : Type}
    (registry : String → Option (PlatformM S R D DR)) (platform_name : String)
    (sender_data : D) (recipients_data : List DR) (content : C)
    (transport : S → R → C → Except String Unit) :
    Except String Unit × List (LogEntry C) :=
  match build_resources registry platform_name sender_data recipients_data content with
  | .error e => (.error e, [])
  | .ok res =>
    (.ok (), send_to_all_built res.platform.get_id transport res.sender
      res.recipients res.content)

end basic

/-- Model of `contact_db.ContactDB`.  The external MySQL store is modelled by
its contents: `rows platform` is the per-platform username table, a list of
`(c_id, username)` rows. -/
structure ContactDB where
  rows : String → List (Nat × String)

/-- Model of `ContactDB.get_usernames`:
`select username from platform-table`. -/
def ContactDB.get_usernames (db : ContactDB) (platform : String) :
    List String :=
  (db.rows platform).map Prod.snd

/-- Model of `ContactDB.get_contact`:
`select c_id from platform-table where username = u`, first row; `none`
models the `KeyError` raised when no row exists. -/
def ContactDB.get_contact (db : ContactDB) (platform username : String) :
    Option Nat :=
  ((db.rows platform).find? fun row => row.snd == username).map Prod.fst

/-- Model of `ContactDB.get_unrecognized`: keep the usernames that are
`not in self.get_usernames(platform)`. -/
def ContactDB.get_unrecognized (db : ContactDB) (platform : String)
    (usernames : List String) : List String :=
  usernames.filter fun username => !((db.get_usernames platform).contains username)

/-- Model of a value returned by the caller-supplied template input builder:
either an ordered sequence of substitution values, or a non-iterable value
(for which `content.format(*x)` raises `TypeError`). -/
inductive TemplateInput where
  | seq (values : List String)
  | scalar
deriving DecidableEq

namespace templated

/-- The `for message in unfilled_messages` loop of `templated.build_messages`.
First component: the built message list, or the `TypeError` raised when the
builder output is not an ordered sequence.  Second component: the recipient
ids whose `ContactNotFound` skip was logged before the loop stopped. -/
def build_messages_loop {S R TD : Type} (get_id : R → String)
    (fmt : String → List String → String) (contact_db : ContactDB)
    (platform_name : String) (templating_data : TD)
    (tib : Nat → TD → Option TemplateInput) :
    List (Message S R String) →
      Except String (List (Message S R String)) × List String
  | [] => (.ok [], [])
  | message :: rest =>
    match contact_db.get_contact platform_name (get_id message.recipient) with
    | none =>
      ((build_messages_loop get_id fmt contact_db platform_name templating_data
          tib rest).1,
       get_id message.recipient ::
         (build_messages_loop get_id fmt contact_db platform_name
           templating_data tib rest).2)
    | some user =>
      match tib user templating_data with
      | none =>
        build_messages_loop get_id fmt contact_db platform_name templating_data
          tib rest
      | some .scalar =>
        (.error "Output of template_input_builder must be a tuple.", [])
      | some (.seq values) =>
        ((build_messages_loop get_id fmt contact_db platform_name
            templating_data tib rest).1.map
           (fun ms =>
             Message.mk message.sender message.recipient
               (fmt message.content values) :: ms),
         (build_messages_loop get_id fmt contact_db platform_name
           templating_data tib rest).2)

/-- Model of `templated.build_messages`: build the unfilled messages, then
personalize each one.  The `platforms.platform_name[type(platform)]` reverse
registry lookup is modelled by the platform name the adapter was resolved
under, and the adapter's `User.get_id` by `get_id`. -/
def build_messages {S R TD : Type} (get_id : R → String)
    (fmt : String → List String → String) (platform_name : String)
    (sender : S) (recipients : List R) (content : String)
    (templating_data : TD) (contact_db : ContactDB)
    (tib : Nat → TD → Option TemplateInput) :
    Except String (List (Message S R String)) × List String :=
  build_messages_loop get_id fmt contact_db platform_name templating_data tib
    (basic.build_messages sender recipients content)

/-- The resource dictionary returned by `templated.build_resources`. -/
structure ResourcesT (S R D : Type) where
  platform : PlatformM S R D String
  sender : S
  recipients : List R
  content : String
  contact_db : ContactDB

/-- Model of `templated.build_resources`: connect to the contact database
(`connect` models `build_contact_db`, `none` a connection failure), default
an empty recipient list from `contact_db.get_usernames(platform_name)`, then
delegate to `basic.build_resources`.  The second component counts the
`get_usernames` queries made. -/
def build_resources {S R D : Type}
    (registry : String → Option (PlatformM S R D String))
    (connect : String → Option ContactDB) (platform_name : String)
    (sender_data : D) (recipients_data : List String) (content : String)
    (db_username : String) : Except String (ResourcesT S R D) × Nat :=
  match connect db_username with
  | none => (.error "DatabaseError: could not connect to the contact database", 0)
  | some contact_db =>
    let queries := if recipients_data = [] then 1 else 0
    let effective_recipients_data :=
      if recipients_data = [] then contact_db.get_usernames platform_name
      else recipients_data
    match basic.build_resources registry platform_name sender_data
        effective_recipients_data content with
    | .error e => (.error e, queries)
    | .ok res =>
      (.ok ⟨res.platform, res.sender, res.recipients, res.content, contact_db⟩,
       queries)

/-- The observable outcome of one `templated.send_to_all` call. -/
structure RunRecord where
  result : Except String Unit
  sendLog : List (LogEntry String)
  usernamesQueries : Nat

/-- Model of `templated.send_to_all`: build resources, build all personalized
messages, then dispatch them; any exception raised on the way propagates in
`result` and no send takes place (the send loop runs only after
`build_messages` has returned). -/
def send_to_all {S R D TD : Type}
    (registry : String → Option (PlatformM S R D String))
    (connect : String → Option ContactDB) (platform_name : String)
    (sender_data : D) (recipients_data : List String) (content : String)
    (templating_data : TD) (db_username : String)
    (tib : Nat → TD → Option TemplateInput)
    (fmt : String → List String → String)
    (transport : S → R → String → Except String Unit) : RunRecord :=
  match build_resources registry connect platform_name sender_data
      recipients_data content db_username with
  | (.error e, queries) => ⟨.error e, [], queries⟩
  | (.ok res, queries) =>
    match (build_messages res.platform.get_id fmt platform_name res.sender
        res.recipients res.content templating_data res.contact_db tib).1 with
    | .error e => ⟨.error e, [], queries⟩
    | .ok messages =>
      ⟨.ok (), basic.dispatchLoop res.platform.get_id transport messages,
       queries⟩

/-- Count of recipients whose `get_contact` lookup raises `KeyError`. -/
def contact_fail_count {R : Type} (get_id : R → String)
    (contact_db : ContactDB) (platform_name : String)
    (recipients : List R) : Nat :=
  (recipients.filter fun r =>
    (contact_db.get_contact platform_name (get_id r)).isNone).length

/-- Count of recipients whose contact resolves but whose template input
builder returns the absent sentinel `None`. -/
def builder_absent_count {R TD : Type} (get_id : R → String)
    (contact_db : ContactDB) (platform_name : String) (templating_data : TD)
    (tib : Nat → TD → Option TemplateInput) (recipients : List R) : Nat :=
  (recipients.filter fun r =>
    match contact_db.get_contact platform_name (get_id r) with
    | some user => (tib user templating_data).isNone
    | none => false).length

end templated

/-- Characters of a string split on one separator character, as Python
`str.split` with a one-character separator. -/
def splitOnChar (c : Char) : List Char → List (List Char)
  | [] => [[]]
  | x :: xs =>
    if x = c then [] :: splitOnChar c xs
    else
      match splitOnChar c xs with
      | [] => [[x]]
      | y :: ys => (x :: y) :: ys

/-- Model of `data['address'].split('@')[1]`: `none` models the `IndexError`
raised when the address has no `@`. -/
def emailDomain (address : String) : Option String :=
  ((splitOnChar '@' address.toList).map List.asString).get? 1

/-- An `smtplib.SMTP` session object, identified by a construction counter
and the smtp keyword data it was constructed from (modelled opaquely). -/
structure EmailServer where
  sessionId : Nat
  smtp : String
deriving DecidableEq

/-- The mutable state of an `email.Email` platform object: the `_servers`
cache keyed by mail domain, plus a count of `smtplib.SMTP` constructions
performed so far in this run. -/
structure EmailState where
  servers : List (String × EmailServer)
  sessionsConstructed : Nat
deriving DecidableEq

/-- The `data` dictionary passed to `Email.build_sender`. -/
structure EmailData where
  address : String
  password : String
  smtp : String
deriving DecidableEq

/-- Model of `email.EmailClientUser`: holds the (possibly shared) server
session together with the address and password it logged in with. -/
structure EmailClientUser where
  server : EmailServer
  address : String
  password : String
deriving DecidableEq

namespace Email

/-- Model of `email.Email.build_sender`: extract the mail domain from the
sender address, reuse the cached session for that domain when present,
otherwise construct a new `smtplib.SMTP` session and cache it. -/
def build_sender (st : EmailState) (data : EmailData) :
    Except String (EmailState × EmailClientUser) :=
  match emailDomain data.address with
  | none => .error "IndexError: list index out of range"
  | some domain =>
    match st.servers.lookup domain with
    | some server => .ok (st, ⟨server, data.address, data.password⟩)
    | none =>
      let server : EmailServer := ⟨st.sessionsConstructed, data.smtp⟩
      .ok (⟨(domain, server) :: st.servers, st.sessionsConstructed + 1⟩,
           ⟨server, data.address, data.password⟩)

end Email

/-! ## Theorems -/

theorem dispatchLoop_append {S R C : Type} (get_id : R → String)
    (transport : S → R → C → Except String Unit)
    (ms₁ ms₂ : List (Message S R C)) :
    basic.dispatchLoop get_id transport (ms₁ ++ ms₂) =
      basic.dispatchLoop get_id transport ms₁ ++
        basic.dispatchLoop get_id transport ms₂ := by
  induction ms₁ with
  | nil => simp [basic.dispatchLoop]
  | cons m rest ih => simp [basic.dispatchLoop, ih]

/-- C2: for every platform and every collection of usernames,
`get_unrecognized(platform, usernames)` returns exactly the usernames of the
input that are not in `get_usernames(platform)`. -/
theorem get_unrecognized_exactly_unknown (db : ContactDB) (platform : String)
    (usernames : List String) (u : String) :
    u ∈ db.get_unrecognized platform usernames ↔
      u ∈ usernames ∧ u ∉ db.get_usernames platform := by
  simp [ContactDB.get_unrecognized, List.mem_filter]

/-- C6: in plain mode, `build_messages` produces exactly one message per
recipient, in order, each with the given sender and the given content
unchanged. -/
theorem plain_build_messages_one_per_recipient {S R C : Type} (sender : S)
    (recipients : List R) (content : C) :
    (basic.build_messages sender recipients content).map Message.recipient =
        recipients ∧
      ∀ m ∈ basic.build_messages sender recipients content,
        m.sender = sender ∧ m.content = content := by
  constructor
  · simp [basic.build_messages, List.map_map, Function.comp_def]
  · intro m hm
    simp only [basic.build_messages, List.mem_map] at hm
    obtain ⟨r, _, rfl⟩ := hm
    exact ⟨rfl, rfl⟩

theorem plain_build_messages_one_per_recipient_w :
    (basic.build_messages "s" ["r1", "r2"] "hello").map Message.recipient =
        ["r1", "r2"] ∧
      (Message.mk "s" "r1" "hello").sender = "s" ∧
        (Message.mk "s" "r1" "hello").content = "hello" :=
  ⟨(plain_build_messages_one_per_recipient "s" ["r1", "r2"] "hello").1,
   (plain_build_messages_one_per_recipient "s" ["r1", "r2"] "hello").2
     ⟨"s", "r1", "hello"⟩ (by simp [basic.build_messages])⟩

/-- C5: when one message's send raises, the dispatch loop logs a failure
entry for that recipient and still dispatches every subsequent message of
the batch; the loop itself returns normally. -/
theorem send_failure_logged_batch_continues {S R C : Type} (get_id : R → String)
    (transport : S → R → C → Except String Unit)
    (ms₁ ms₂ : List (Message S R C)) (m : Message S R C) (e : String)
    (h : m.send transport = .error e) :
    basic.dispatchLoop get_id transport (ms₁ ++ m :: ms₂) =
      basic.dispatchLoop get_id transport ms₁ ++
        LogEntry.failure (get_id m.recipient) ::
          basic.dispatchLoop get_id transport ms₂ := by
  rw [dispatchLoop_append]
  simp [basic.dispatchLoop, basic.send_message, h]

theorem send_failure_logged_batch_continues_w :
    basic.dispatchLoop (S := String) (C := String) (fun r : String => r)
        (fun _ _ _ => .error "boom")
        ([⟨"s", "r0", "c"⟩] ++ ⟨"s", "r1", "c"⟩ :: [⟨"s", "r2", "c"⟩]) =
      basic.dispatchLoop (fun r : String => r) (fun _ _ _ => .error "boom")
          [⟨"s", "r0", "c"⟩] ++
        LogEntry.failure "r1" ::
          basic.dispatchLoop (fun r : String => r) (fun _ _ _ => .error "boom")
            [⟨"s", "r2", "c"⟩] :=
  send_failure_logged_batch_continues (fun r => r) (fun _ _ _ => .error "boom")
    [⟨"s", "r0", "c"⟩] [⟨"s", "r2", "c"⟩] ⟨"s", "r1", "c"⟩ "boom" rfl

/-- C9: a second `Email.build_sender` call whose sender address has the same
mail domain reuses the cached session: the platform state is unchanged (no
new `smtplib.SMTP` construction) and the returned client user holds the same
server session as the first call. -/
theorem email_build_sender_caches_session (st st₁ : EmailState)
    (d₁ d₂ : EmailData) (u₁ : EmailClientUser)
    (h1 : Email.build_sender st d₁ = .ok (st₁, u₁))
    (h2 : emailDomain d₂.address = emailDomain d₁.address) :
    Email.build_sender st₁ d₂ =
      .ok (st₁, ⟨u₁.server, d₂.address, d₂.password⟩) := by
  cases hd : emailDomain d₁.address with
  | none => simp [Email.build_sender, hd] at h1
  | some dom =>
    cases hl : st.servers.lookup dom with
    | some server =>
      simp only [Email.build_sender, hd, hl, Except.ok.injEq, Prod.mk.injEq] at h1
      obtain ⟨rfl, rfl⟩ := h1
      simp [Email.build_sender, h2, hd, hl]
    | none =>
      simp only [Email.build_sender, hd, hl, Except.ok.injEq, Prod.mk.injEq] at h1
      obtain ⟨rfl, rfl⟩ := h1
      simp [Email.build_sender, h2, hd, List.lookup]

theorem email_build_sender_caches_session_w :
    Email.build_sender ⟨[("x.com", ⟨0, "cfg"⟩)], 1⟩ ⟨"b@x.com", "p2", "cfg2"⟩ =
      .ok (⟨[("x.com", ⟨0, "cfg"⟩)], 1⟩, ⟨⟨0, "cfg"⟩, "b@x.com", "p2"⟩) :=
  email_build_sender_caches_session ⟨[], 0⟩ ⟨[("x.com", ⟨0, "cfg"⟩)], 1⟩
    ⟨"a@x.com", "p1", "cfg"⟩ ⟨"b@x.com", "p2", "cfg2"⟩
    ⟨⟨0, "cfg"⟩, "a@x.com", "p1"⟩ rfl rfl

theorem dispatchLoop_length {S R C : Type} (get_id : R → String)
    (transport : S → R → C → Except String Unit) (ms : List (Message S R C)) :
    (basic.dispatchLoop get_id transport ms).length = ms.length := by
  induction ms with
  | nil => rfl
  | cons m rest ih => simp [basic.dispatchLoop, ih]

theorem templated_build_messages_nil {S R TD : Type} (get_id : R → String)
    (fmt : String → List String → String) (platform_name : String) (sender : S)
    (content : String) (templating_data : TD) (contact_db : ContactDB)
    (tib : Nat → TD → Option TemplateInput) :
    templated.build_messages (R := R) get_id fmt platform_name sender []
        content templating_data contact_db tib = (.ok [], []) :=
  rfl

theorem templated_build_messages_cons {S R TD : Type} (get_id : R → String)
    (fmt : String → List String → String) (platform_name : String) (sender : S)
    (r : R) (rest : List R) (content : String) (templating_data : TD)
    (contact_db : ContactDB) (tib : Nat → TD → Option TemplateInput) :
    templated.build_messages get_id fmt platform_name sender (r :: rest)
        content templating_data contact_db tib =
      match contact_db.get_contact platform_name (get_id r) with
      | none =>
        ((templated.build_messages get_id fmt platform_name sender rest content
            templating_data contact_db tib).1,
         get_id r ::
           (templated.build_messages get_id fmt platform_name sender rest
             content templating_data contact_db tib).2)
      | some user =>
        match tib user templating_data with
        | none =>
          templated.build_messages get_id fmt platform_name sender rest content
            templating_data contact_db tib
        | some .scalar =>
          (.error "Output of template_input_builder must be a tuple.", [])
        | some (.seq values) =>
          ((templated.build_messages get_id fmt platform_name sender rest
              content templating_data contact_db tib).1.map
             (fun ms => Message.mk sender r (fmt content values) :: ms),
           (templated.build_messages get_id fmt platform_name sender rest
             content templating_data contact_db tib).2) :=
  rfl

/-- C3: in templated mode, a recipient whose directory lookup raises
`ContactNotFound` is skipped: the build result is exactly the result for the
remaining recipients (no message for them, no error surfaced), and the skip
is logged under that recipient id. -/
theorem contact_not_found_skipped_logged {S R TD : Type} (get_id : R → String)
    (fmt : String → List String → String) (platform_name : String) (sender : S)
    (r : R) (rest : List R) (content : String) (templating_data : TD)
    (contact_db : ContactDB) (tib : Nat → TD → Option TemplateInput)
    (h : contact_db.get_contact platform_name (get_id r) = none) :
    templated.build_messages get_id fmt platform_name sender (r :: rest)
        content templating_data contact_db tib =
      ((templated.build_messages get_id fmt platform_name sender rest content
          templating_data contact_db tib).1,
       get_id r ::
         (templated.build_messages get_id fmt platform_name sender rest content
           templating_data contact_db tib).2) := by
  rw [templated_build_messages_cons, h]

theorem contact_not_found_skipped_logged_w :
    templated.build_messages (S := String) (fun r : String => r)
        (fun t _ => t) "email" "s" ("ghost" :: ["a@x.com"]) "hello" ()
        ⟨fun _ => [(7, "a@x.com")]⟩ (fun _ _ => some (.seq [])) =
      ((templated.build_messages (fun r : String => r) (fun t _ => t) "email"
          "s" ["a@x.com"] "hello" () ⟨fun _ => [(7, "a@x.com")]⟩
          (fun _ _ => some (.seq []))).1,
       "ghost" ::
         (templated.build_messages (fun r : String => r) (fun t _ => t) "email"
           "s" ["a@x.com"] "hello" () ⟨fun _ => [(7, "a@x.com")]⟩
           (fun _ _ => some (.seq []))).2) :=
  contact_not_found_skipped_logged (fun r => r) (fun t _ => t) "email" "s"
    "ghost" ["a@x.com"] "hello" () ⟨fun _ => [(7, "a@x.com")]⟩
    (fun _ _ => some (.seq [])) rfl

theorem contact_fail_count_cons {R : Type} (get_id : R → String)
    (contact_db : ContactDB) (platform_name : String) (r : R)
    (rest : List R) :
    templated.contact_fail_count get_id contact_db platform_name (r :: rest) =
      templated.contact_fail_count get_id contact_db platform_name rest +
        (if (contact_db.get_contact platform_name (get_id r)).isNone then 1
         else 0) := by
  simp only [templated.contact_fail_count, List.filter_cons]
  split
  · simp only [List.length_cons]
  · simp

theorem builder_absent_count_cons {R TD : Type} (get_id : R → String)
    (contact_db : ContactDB) (platform_name : String) (templating_data : TD)
    (tib : Nat → TD → Option TemplateInput) (r : R) (rest : List R) :
    templated.builder_absent_count get_id contact_db platform_name
        templating_data tib (r :: rest) =
      templated.builder_absent_count get_id contact_db platform_name
          templating_data tib rest +
        (match contact_db.get_contact platform_name (get_id r) with
         | some user => if (tib user templating_data).isNone then 1 else 0
         | none => 0) := by
  simp only [templated.builder_absent_count, List.filter_cons]
  cases hc : contact_db.get_contact platform_name (get_id r) with
  | none => simp
  | some user =>
    cases ht : tib user templating_data with
    | none => simp [ht]
    | some ti => simp [ht]

/-- C4: in templated mode, when message building succeeds, the number of
messages built is at most the number of recipients, and the shortfall is
exactly the count of recipients whose directory lookup fails plus the count
of recipients for which the template input builder returns the absent
sentinel; and every built message yields exactly one send attempt. -/
theorem templated_message_count {S R TD : Type} (get_id : R → String)
    (fmt : String → List String → String) (platform_name : String) (sender : S)
    (recipients : List R) (content : String) (templating_data : TD)
    (contact_db : ContactDB) (tib : Nat → TD → Option TemplateInput)
    (transport : S → R → String → Except String Unit)
    (msgs : List (Message S R String))
    (h : (templated.build_messages get_id fmt platform_name sender recipients
        content templating_data contact_db tib).1 = .ok msgs) :
    msgs.length +
        templated.contact_fail_count get_id contact_db platform_name
          recipients +
        templated.builder_absent_count get_id contact_db platform_name
          templating_data tib recipients = recipients.length ∧
      msgs.length ≤ recipients.length ∧
      (basic.dispatchLoop get_id transport msgs).length = msgs.length := by
  have main :
      msgs.length +
        templated.contact_fail_count get_id contact_db platform_name
          recipients +
        templated.builder_absent_count get_id contact_db platform_name
          templating_data tib recipients = recipients.length := by
    induction recipients generalizing msgs with
    | nil =>
      rw [templated_build_messages_nil] at h
      simp only [Except.ok.injEq] at h
      subst h
      simp [templated.contact_fail_count, templated.builder_absent_count]
    | cons r rest ih =>
      rw [templated_build_messages_cons] at h
      rw [contact_fail_count_cons, builder_absent_count_cons]
      cases hc : contact_db.get_contact platform_name (get_id r) with
      | none =>
        simp only [hc] at h
        have heq := ih msgs h
        simp [hc]
        omega
      | some user =>
        simp only [hc] at h
        cases ht : tib user templating_data with
        | none =>
          simp only [ht] at h
          have heq := ih msgs h
          simp [hc, ht]
          omega
        | some ti =>
          simp only [ht] at h
          cases ti with
          | scalar => simp at h
          | seq values =>
            cases hrest : (templated.build_messages get_id fmt platform_name
                sender rest content templating_data contact_db tib).1 with
            | error e => rw [hrest] at h; simp [Except.map] at h
            | ok tail =>
              rw [hrest] at h
              simp only [Except.map, Except.ok.injEq] at h
              subst h
              have heq := ih tail hrest
              simp [hc, ht]
              omega
  exact ⟨main, by omega, dispatchLoop_length get_id transport msgs⟩

theorem templated_message_count_w :
    ([Message.mk "s" "a@x.com" "filled"] : List (Message String String String)).length +
          templated.contact_fail_count (fun r : String => r)
            ⟨fun _ => [(0, "a@x.com"), (1, "b@x.com")]⟩ "email"
            ["a@x.com", "b@x.com", "ghost"] +
          templated.builder_absent_count (fun r : String => r)
            ⟨fun _ => [(0, "a@x.com"), (1, "b@x.com")]⟩ "email" ()
            (fun u _ => if u = 0 then some (.seq ["v"]) else none)
            ["a@x.com", "b@x.com", "ghost"] =
        (["a@x.com", "b@x.com", "ghost"] : List String).length ∧
      ([Message.mk "s" "a@x.com" "filled"] : List (Message String String String)).length ≤
        (["a@x.com", "b@x.com", "ghost"] : List String).length ∧
      (basic.dispatchLoop (fun r : String => r)
          (fun _ _ _ : String => .ok ())
          [Message.mk "s" "a@x.com" "filled"]).length =
        ([Message.mk "s" "a@x.com" "filled"] : List (Message String String String)).length :=
  templated_message_count (fun r => r) (fun _ _ => "filled") "email" "s"
    ["a@x.com", "b@x.com", "ghost"] "hi" ()
    ⟨fun _ => [(0, "a@x.com"), (1, "b@x.com")]⟩
    (fun u _ => if u = 0 then some (.seq ["v"]) else none)
    (fun _ _ _ => .ok ()) [Message.mk "s" "a@x.com" "filled"] rfl

theorem send_message_rid {S R C : Type} (get_id : R → String)
    (transport : S → R → C → Except String Unit) (m : Message S R C) :
    (basic.send_message get_id transport m).rid = get_id m.recipient := by
  unfold basic.send_message
  cases m.send transport <;> rfl

theorem dispatchLoop_map_rid {S R C : Type} (get_id : R → String)
    (transport : S → R → C → Except String Unit) (ms : List (Message S R C)) :
    (basic.dispatchLoop get_id transport ms).map LogEntry.rid =
      ms.map fun m => get_id m.recipient := by
  induction ms with
  | nil => rfl
  | cons m rest ih => simp [basic.dispatchLoop, ih, send_message_rid]

/-- C10: messages are dispatched in recipient-list order.  In plain mode the
send-attempt log lists exactly the recipient ids in list order; in templated
mode the built messages form an order-preserving subsequence of the input
recipients, each message keeping the common sender and its own recipient. -/
theorem dispatch_in_recipient_order {S R TD : Type} (get_id : R → String)
    (transport : S → R → String → Except String Unit)
    (fmt : String → List String → String) (platform_name : String) (sender : S)
    (recipients : List R) (content : String) (templating_data : TD)
    (contact_db : ContactDB) (tib : Nat → TD → Option TemplateInput)
    (msgs : List (Message S R String)) :
    (basic.send_to_all_built get_id transport sender recipients content).map
        LogEntry.rid = recipients.map get_id ∧
      ((templated.build_messages get_id fmt platform_name sender recipients
          content templating_data contact_db tib).1 = .ok msgs →
        List.Sublist (msgs.map Message.recipient) recipients ∧
          ∀ m ∈ msgs, m.sender = sender) := by
  constructor
  · simp [basic.send_to_all_built, dispatchLoop_map_rid, basic.build_messages,
      List.map_map, Function.comp_def]
  · induction recipients generalizing msgs with
    | nil =>
      intro h
      rw [templated_build_messages_nil] at h
      simp only [Except.ok.injEq] at h
      subst h
      simp
    | cons r rest ih =>
      intro h
      rw [templated_build_messages_cons] at h
      cases hc : contact_db.get_contact platform_name (get_id r) with
      | none =>
        simp only [hc] at h
        obtain ⟨hs, hsend⟩ := ih msgs h
        exact ⟨hs.cons r, hsend⟩
      | some user =>
        simp only [hc] at h
        cases ht : tib user templating_data with
        | none =>
          simp only [ht] at h
          obtain ⟨hs, hsend⟩ := ih msgs h
          exact ⟨hs.cons r, hsend⟩
        | some ti =>
          simp only [ht] at h
          cases ti with
          | scalar => simp at h
          | seq values =>
            cases hrest : (templated.build_messages get_id fmt platform_name
                sender rest content templating_data contact_db tib).1 with
            | error e => rw [hrest] at h; simp [Except.map] at h
            | ok tail =>
              rw [hrest] at h
              simp only [Except.map, Except.ok.injEq] at h
              subst h
              obtain ⟨hs, hsend⟩ := ih tail hrest
              refine ⟨?_, ?_⟩
              · simpa using hs.cons₂ r
              · intro m hm
                rcases List.mem_cons.mp hm with rfl | hm'
                · rfl
                · exact hsend m hm'

theorem dispatch_in_recipient_order_w :
    (basic.send_to_all_built (fun r : String => r)
          (fun _ _ _ : String => .ok ()) "s" ["a@x.com", "b@x.com", "ghost"]
          "hi").map LogEntry.rid =
        (["a@x.com", "b@x.com", "ghost"] : List String).map (fun r => r) ∧
      (List.Sublist (([Message.mk "s" "a@x.com" "filled"] :
            List (Message String String String)).map Message.recipient)
          ["a@x.com", "b@x.com", "ghost"] ∧
        ∀ m ∈ ([Message.mk "s" "a@x.com" "filled"] :
            List (Message String String String)), m.sender = "s") :=
  ⟨(dispatch_in_recipient_order (fun r => r) (fun _ _ _ => .ok ())
      (fun _ _ => "filled") "email" "s" ["a@x.com", "b@x.com", "ghost"] "hi" ()
      ⟨fun _ => [(0, "a@x.com"), (1, "b@x.com")]⟩
      (fun u _ => if u = 0 then some (.seq ["v"]) else none)
      [Message.mk "s" "a@x.com" "filled"]).1,
   (dispatch_in_recipient_order (fun r => r) (fun _ _ _ => .ok ())
      (fun _ _ => "filled") "email" "s" ["a@x.com", "b@x.com", "ghost"] "hi" ()
      ⟨fun _ => [(0, "a@x.com"), (1, "b@x.com")]⟩
      (fun u _ => if u = 0 then some (.seq ["v"]) else none)
      [Message.mk "s" "a@x.com" "filled"]).2 rfl⟩

theorem build_messages_scalar_error {S R TD : Type} (get_id : R → String)
    (fmt : String → List String → String) (platform_name : String) (sender : S)
    (recipients : List R) (content : String) (templating_data : TD)
    (contact_db : ContactDB) (tib : Nat → TD → Option TemplateInput)
    (hw : ∃ r ∈ recipients, ∃ user,
        contact_db.get_contact platform_name (get_id r) = some user ∧
          tib user templating_data = some .scalar) :
    (templated.build_messages get_id fmt platform_name sender recipients
        content templating_data contact_db tib).1 =
      .error "Output of template_input_builder must be a tuple." := by
  induction recipients with
  | nil => obtain ⟨r, hr, _⟩ := hw; simp at hr
  | cons r rest ih =>
    obtain ⟨r', hr', user, hu, hscal⟩ := hw
    rw [templated_build_messages_cons]
    rcases List.mem_cons.mp hr' with rfl | hmem
    · simp [hu, hscal]
    · have herr := ih ⟨r', hmem, user, hu, hscal⟩
      cases hc : contact_db.get_contact platform_name (get_id r) with
      | none => simp [hc, herr]
      | some u2 =>
        cases ht : tib u2 templating_data with
        | none => simp [hc, ht, herr]
        | some ti =>
          cases ti with
          | scalar => simp [hc, ht]
          | seq values => simp [hc, ht, herr, Except.map]

/-- C1: in templated mode, when the template input builder returns a value
that is not a valid ordered sequence (a non-iterable scalar) for some
recipient whose contact resolves, `build_messages` raises the fatal
`TypeError` (`InvalidTemplateInput`), the whole run fails with that error,
and no send takes place. -/
theorem malformed_template_input_aborts {S R D TD : Type}
    (registry : String → Option (PlatformM S R D String))
    (connect : String → Option ContactDB) (platform_name : String)
    (sender_data : D) (recipients_data : List String) (content : String)
    (templating_data : TD) (db_username : String)
    (tib : Nat → TD → Option TemplateInput)
    (fmt : String → List String → String)
    (transport : S → R → String → Except String Unit)
    (res : templated.ResourcesT S R D) (queries : Nat)
    (hres : templated.build_resources registry connect platform_name
        sender_data recipients_data content db_username = (.ok res, queries))
    (hw : ∃ r ∈ res.recipients, ∃ user,
        res.contact_db.get_contact platform_name (res.platform.get_id r) =
            some user ∧
          tib user templating_data = some .scalar) :
    (templated.build_messages res.platform.get_id fmt platform_name res.sender
        res.recipients res.content templating_data res.contact_db tib).1 =
      .error "Output of template_input_builder must be a tuple." ∧
    (templated.send_to_all registry connect platform_name sender_data
        recipients_data content templating_data db_username tib fmt
        transport).result =
      .error "Output of template_input_builder must be a tuple." ∧
    (templated.send_to_all registry connect platform_name sender_data
        recipients_data content templating_data db_username tib fmt
        transport).sendLog = [] := by
  have herr := build_messages_scalar_error res.platform.get_id fmt
    platform_name res.sender res.recipients res.content templating_data
    res.contact_db tib hw
  refine ⟨herr, ?_, ?_⟩ <;> simp [templated.send_to_all, hres, herr]

theorem malformed_template_input_aborts_w :
    (templated.send_to_all (S := String) (R := String) (D := String)
        (fun n => if n = "email" then some ⟨fun d => .ok d, fun u => u, fun r => r⟩
          else none)
        (fun _ => some ⟨fun _ => [(0, "a@x.com")]⟩) "email" "snd" ["a@x.com"]
        "hi" () "dbu" (fun _ _ => some .scalar) (fun t _ => t)
        (fun _ _ _ => .ok ())).result =
      .error "Output of template_input_builder must be a tuple." ∧
    (templated.send_to_all (S := String) (R := String) (D := String)
        (fun n => if n = "email" then some ⟨fun d => .ok d, fun u => u, fun r => r⟩
          else none)
        (fun _ => some ⟨fun _ => [(0, "a@x.com")]⟩) "email" "snd" ["a@x.com"]
        "hi" () "dbu" (fun _ _ => some .scalar) (fun t _ => t)
        (fun _ _ _ => .ok ())).sendLog = [] := by
  have h := malformed_template_input_aborts
    (fun n => if n = "email" then some ⟨fun d => .ok d, fun u => u, fun r => r⟩
      else none)
    (fun _ => some ⟨fun _ => [(0, "a@x.com")]⟩) "email" "snd" ["a@x.com"] "hi"
    () "dbu" (fun _ _ => some .scalar) (fun t _ => t) (fun _ _ _ => .ok ())
    ⟨⟨fun d => .ok d, fun u => u, fun r => r⟩, "snd", ["a@x.com"], "hi",
      ⟨fun _ => [(0, "a@x.com")]⟩⟩ 0 rfl
    ⟨"a@x.com", by simp, 0, rfl, rfl⟩
  exact ⟨h.2.1, h.2.2⟩

/-- C7: in templated mode with an empty given recipient list, the effective
recipient set is the directory snapshot `get_usernames(platform_name)` taken
during resource construction, the snapshot query is made exactly once there,
and the whole run still makes exactly one `get_usernames` query — it is not
re-queried per message. -/
theorem empty_recipients_snapshot_once {S R D TD : Type}
    (registry : String → Option (PlatformM S R D String))
    (connect : String → Option ContactDB) (platform_name : String)
    (sender_data : D) (recipients_data : List String) (content : String)
    (templating_data : TD) (db_username : String)
    (tib : Nat → TD → Option TemplateInput)
    (fmt : String → List String → String)
    (transport : S → R → String → Except String Unit)
    (db : ContactDB) (platform : PlatformM S R D String) (sender : S)
    (hempty : recipients_data = [])
    (hconn : connect db_username = some db)
    (hreg : registry platform_name = some platform)
    (hsend : platform.build_sender sender_data = .ok sender) :
    templated.build_resources registry connect platform_name sender_data
        recipients_data content db_username =
      (.ok ⟨platform, sender,
          (db.get_usernames platform_name).map platform.build_recipient,
          content, db⟩, 1) ∧
    (templated.send_to_all registry connect platform_name sender_data
        recipients_data content templating_data db_username tib fmt
        transport).usernamesQueries = 1 := by
  subst hempty
  have hres : templated.build_resources registry connect platform_name
      sender_data [] content db_username =
      (.ok ⟨platform, sender,
          (db.get_usernames platform_name).map platform.build_recipient,
          content, db⟩, 1) := by
    simp [templated.build_resources, hconn, basic.build_resources, hreg, hsend]
  refine ⟨hres, ?_⟩
  simp only [templated.send_to_all, hres]
  cases hbm : (templated.build_messages platform.get_id fmt platform_name
      sender ((db.get_usernames platform_name).map platform.build_recipient)
      content templating_data db tib).1 with
  | error e => simp [hbm]
  | ok msgs => simp [hbm]

theorem empty_recipients_snapshot_once_w :
    templated.build_resources (S := String) (R := String) (D := String)
        (fun n => if n = "email" then some ⟨fun d => .ok d, fun u => u, fun r => r⟩
          else none)
        (fun _ => some ⟨fun _ => [(0, "a@x.com"), (1, "b@x.com")]⟩) "email"
        "snd" [] "hi" "dbu" =
      (.ok ⟨⟨fun d => .ok d, fun u => u, fun r => r⟩, "snd",
          ((⟨fun _ => [(0, "a@x.com"), (1, "b@x.com")]⟩ :
              ContactDB).get_usernames "email").map (fun u => u),
          "hi", ⟨fun _ => [(0, "a@x.com"), (1, "b@x.com")]⟩⟩, 1) ∧
    (templated.send_to_all (S := String) (R := String) (D := String)
        (fun n => if n = "email" then some ⟨fun d => .ok d, fun u => u, fun r => r⟩
          else none)
        (fun _ => some ⟨fun _ => [(0, "a@x.com"), (1, "b@x.com")]⟩) "email"
        "snd" [] "hi" () "dbu" (fun _ _ => some (.seq ["v"])) (fun t _ => t)
        (fun _ _ _ => .ok ())).usernamesQueries = 1 :=
  empty_recipients_snapshot_once
    (fun n => if n = "email" then some ⟨fun d => .ok d, fun u => u, fun r => r⟩
      else none)
    (fun _ => some ⟨fun _ => [(0, "a@x.com"), (1, "b@x.com")]⟩) "email" "snd"
    [] "hi" () "dbu" (fun _ _ => some (.seq ["v"])) (fun t _ => t)
    (fun _ _ _ => .ok ()) ⟨fun _ => [(0, "a@x.com"), (1, "b@x.com")]⟩
    ⟨fun d => .ok d, fun u => u, fun r => r⟩ "snd" rfl rfl rfl rfl

/-- C8: every fatal error is raised before any send is attempted: whenever
`send_to_all` (plain or templated) ends in an error — unresolved platform
name, sender construction failure, missing directory credential, invalid
template-input shape — its send log is empty, so no send occurred before
resource construction and message building completed. -/
theorem fatal_errors_before_any_send {S R D DR C S2 R2 D2 TD : Type}
    (registry : String → Option (PlatformM S R D DR)) (platform_name : String)
    (sender_data : D) (recipients_data : List DR) (content : C)
    (transport : S → R → C → Except String Unit)
    (registry2 : String → Option (PlatformM S2 R2 D2 String))
    (connect : String → Option ContactDB) (platform_name2 : String)
    (sender_data2 : D2) (recipients_data2 : List String) (content2 : String)
    (templating_data : TD) (db_username : String)
    (tib : Nat → TD → Option TemplateInput)
    (fmt : String → List String → String)
    (transport2 : S2 → R2 → String → Except String Unit) :
    (∀ e, (basic.send_to_all registry platform_name sender_data
          recipients_data content transport).1 = .error e →
        (basic.send_to_all registry platform_name sender_data recipients_data
          content transport).2 = []) ∧
    (∀ e, (templated.send_to_all registry2 connect platform_name2 sender_data2
          recipients_data2 content2 templating_data db_username tib fmt
          transport2).result = .error e →
        (templated.send_to_all registry2 connect platform_name2 sender_data2
          recipients_data2 content2 templating_data db_username tib fmt
          transport2).sendLog = []) := by
  constructor
  · intro e he
    cases hbr : basic.build_resources registry platform_name sender_data
        recipients_data content with
    | error e2 => simp [basic.send_to_all, hbr]
    | ok res => simp [basic.send_to_all, hbr] at he
  · intro e he
    rcases hbr : templated.build_resources registry2 connect platform_name2
        sender_data2 recipients_data2 content2 db_username with ⟨fst, queries⟩
    cases fst with
    | error e2 => simp [templated.send_to_all, hbr]
    | ok res =>
      cases hbm : (templated.build_messages res.platform.get_id fmt
          platform_name2 res.sender res.recipients res.content templating_data
          res.contact_db tib).1 with
      | error e3 => simp [templated.send_to_all, hbr, hbm]
      | ok msgs => simp [templated.send_to_all, hbr, hbm] at he

theorem fatal_errors_before_any_send_w :
    (basic.send_to_all
        (fun _ : String => (none : Option (PlatformM String String String String)))
        "nope" "sd" ["r"] ("c" : String) (fun _ _ _ => .ok ())).2 = [] ∧
    (templated.send_to_all (S := String) (R := String) (D := String)
        (fun _ => none) (fun _ => none) "email" "sd" ["r"] "c" () "dbu"
        (fun _ _ => some (.seq [])) (fun t _ => t)
        (fun _ _ _ : String => .ok ())).sendLog = [] :=
  ⟨(@fatal_errors_before_any_send String String String String String String
      String String Unit (fun _ => none) "nope" "sd" ["r"] "c"
      (fun _ _ _ => .ok ()) (fun _ => none) (fun _ => none) "email" "sd" ["r"]
      "c" () "dbu" (fun _ _ => some (.seq [])) (fun t _ => t)
      (fun _ _ _ => .ok ())).1 "KeyError: nope" rfl,
   (@fatal_errors_before_any_send String String String String String String
      String String Unit (fun _ => none) "nope" "sd" ["r"] "c"
      (fun _ _ _ => .ok ()) (fun _ => none) (fun _ => none) "email" "sd" ["r"]
      "c" () "dbu" (fun _ _ => some (.seq [])) (fun t _ => t)
      (fun _ _ _ => .ok ())).2
     "DatabaseError: could not connect to the contact database" rfl⟩
